import Mathlib

/-!
Verification of the Aadhaar data-extraction service (`src/main.py`).

The development shallowly embeds the Python source.  External collaborators
(the PyMuPDF rendering library, the generative-AI model, PIL, the OS
filesystem and clock) are modelled as oracles gathered in an `Env`
structure, following the black-box contracts stated for them in the
specification.  Pure Python string processing (`str.strip`, `str.replace`,
`json.loads`) is embedded as executable Lean functions on `List Char`.
-/

namespace AadhaarExtract

/-- Whitespace characters recognised by JSON (and stripped by `str.strip`;
Python's `strip` also removes some rarer Unicode whitespace, which the
model omits): space, tab, line feed, carriage return. -/
def isWs (c : Char) : Bool :=
  c = ' ' || c = '\t' || c = '\n' || c = '\r'

/-- Model of Python `str.strip()` on a character list: drop whitespace from
the front, then from the back. -/
def pyStrip (l : List Char) : List Char :=
  ((l.dropWhile isWs).reverse.dropWhile isWs).reverse

/-- Recursion core for `removeAll`.  The fuel argument makes the recursion
structural so that terms reduce definitionally; `removeAll` instantiates it
with the length of the list, which always suffices. -/
def removeAllGo (pat : List Char) : Nat → List Char → List Char
  | _, [] => []
  | 0, l => l
  | fuel + 1, c :: rest =>
    if pat.isPrefixOf (c :: rest) then
      removeAllGo pat fuel (List.drop (pat.length - 1) rest)
    else
      c :: removeAllGo pat fuel rest

/-- Model of Python `s.replace(pat, '')` for a non-empty pattern: remove all
non-overlapping occurrences of `pat`, scanning left to right.  (The source
only ever replaces the non-empty patterns "```json" and "```" by the empty
string.) -/
def removeAll (pat l : List Char) : List Char :=
  removeAllGo pat l.length l

/-- Model of the response cleaning in `extract_aadhaar_data`
(src/main.py lines 85-86):
`json_str = response.text.strip()` followed by
`json_str.replace('```json', '').replace('```', '').strip()`. -/
def cleanResponse (s : String) : String :=
  ⟨pyStrip (removeAll ("```".data) (removeAll ("```json".data) (pyStrip s.data)))⟩

/-- A Python value produced by `json.loads`.  Numbers are modelled as
integers (the service's claims never involve fractional numbers, whose
floating-point representation is out of scope for the embedding). -/
inductive PyJson where
  | null
  | bool (b : Bool)
  | num (n : Int)
  | str (s : String)
  | arr (elems : List PyJson)
  | obj (fields : List (String × PyJson))

/-- Python truthiness of a JSON value: `None`, `False`, `0`, `""`, `[]` and
`\x7b\x7d` are falsy, everything else is truthy. -/
def pyFalsy : PyJson → Bool
  | .null => true
  | .bool b => !b
  | .num n => n = 0
  | .str s => s = ""
  | .arr elems => elems.isEmpty
  | .obj fields => fields.isEmpty

/-- Translate a JSON string escape character to the character it denotes.
The model covers the single-character escapes; `\uXXXX` escapes are not
modelled (no claim depends on them). -/
def escChar (e : Char) : Option Char :=
  if e = '"' then some '"'
  else if e = '\\' then some '\\'
  else if e = '/' then some '/'
  else if e = 'b' then some (Char.ofNat 8)
  else if e = 'f' then some (Char.ofNat 12)
  else if e = 'n' then some '\n'
  else if e = 'r' then some '\r'
  else if e = 't' then some '\t'
  else none

/-- Parse the body of a JSON string literal, after the opening quote.
Returns the decoded characters and the remaining input.  Raw control
characters are rejected, as in Python's strict `json.loads`. -/
def parseStringBody : List Char → Option (List Char × List Char)
  | [] => none
  | c :: rest =>
    if c = '"' then some ([], rest)
    else if c = '\\' then
      match rest with
      | [] => none
      | e :: rest2 =>
        match escChar e with
        | some ch => (parseStringBody rest2).map (fun p => (ch :: p.1, p.2))
        | none => none
    else if c.toNat < 32 then none
    else (parseStringBody rest).map (fun p => (c :: p.1, p.2))

/-- Numeric value of a list of decimal digit characters. -/
def digitsToNat (l : List Char) : Nat :=
  l.foldl (fun a c => a * 10 + (c.toNat - 48)) 0

/-- Parse a JSON integer: optional minus sign, then digits, with no
superfluous leading zero. -/
def parseNumber (l : List Char) : Option (Int × List Char) :=
  let (neg, l') : Bool × List Char :=
    match l with
    | '-' :: r => (true, r)
    | _ => (false, l)
  let ds := l'.takeWhile Char.isDigit
  let rest := l'.dropWhile Char.isDigit
  match ds with
  | [] => none
  | d :: ds' =>
    if d = '0' ∧ ds' ≠ [] then none
    else
      let n : Int := (digitsToNat (d :: ds') : Nat)
      some (if neg then -n else n, rest)

/-- Expect the literal characters `lit` at the head of the input. -/
def parseLit (lit l : List Char) : Option (List Char) :=
  if lit.isPrefixOf l then some (List.drop lit.length l) else none

/-- Parsing mode for the single-function JSON parser: a value, the items of
an array after its first element position, or the members of an object. -/
inductive PMode where
  | val
  | arrItems
  | objItems

/-- Intermediate parse result, tagged by the mode that produced it. -/
inductive PRes where
  | v (x : PyJson)
  | arrI (xs : List PyJson)
  | objI (kvs : List (String × PyJson))

/-- Recursive core of the JSON parser.  A single fuel-indexed function is
used instead of mutual recursion so that every call reduces definitionally.
The fuel only bounds recursion depth; `json_loads` supplies enough for any
input. -/
def parseCore : Nat → PMode → List Char → Option (PRes × List Char)
  | 0, _, _ => none
  | fuel + 1, .val, l =>
    match l.dropWhile isWs with
    | [] => none
    | c :: rest =>
      if c = '"' then
        match parseStringBody rest with
        | some (cs, r) => some (.v (.str ⟨cs⟩), r)
        | none => none
      else if c = '{' then
        match rest.dropWhile isWs with
        | '}' :: r => some (.v (.obj []), r)
        | _ =>
          match parseCore fuel .objItems rest with
          | some (.objI kvs, r) => some (.v (.obj kvs), r)
          | _ => none
      else if c = '[' then
        match rest.dropWhile isWs with
        | ']' :: r => some (.v (.arr []), r)
        | _ =>
          match parseCore fuel .arrItems rest with
          | some (.arrI xs, r) => some (.v (.arr xs), r)
          | _ => none
      else if c = 't' then
        match parseLit ['r', 'u', 'e'] rest with
        | some r => some (.v (.bool true), r)
        | none => none
      else if c = 'f' then
        match parseLit ['a', 'l', 's', 'e'] rest with
        | some r => some (.v (.bool false), r)
        | none => none
      else if c = 'n' then
        match parseLit ['u', 'l', 'l'] rest with
        | some r => some (.v .null, r)
        | none => none
      else
        match parseNumber (c :: rest) with
        | some (n, r) => some (.v (.num n), r)
        | none => none
  | fuel + 1, .arrItems, l =>
    match parseCore fuel .val l with
    | some (.v x, r) =>
      match r.dropWhile isWs with
      | ',' :: r2 =>
        match parseCore fuel .arrItems r2 with
        | some (.arrI xs, r3) => some (.arrI (x :: xs), r3)
        | _ => none
      | ']' :: r2 => some (.arrI [x], r2)
      | _ => none
    | _ => none
  | fuel + 1, .objItems, l =>
    match l.dropWhile isWs with
    | '"' :: r =>
      match parseStringBody r with
      | some (k, r2) =>
        match r2.dropWhile isWs with
        | ':' :: r3 =>
          match parseCore fuel .val r3 with
          | some (.v x, r4) =>
            match r4.dropWhile isWs with
            | ',' :: r5 =>
              match parseCore fuel .objItems r5 with
              | some (.objI kvs, r6) => some (.objI ((⟨k⟩, x) :: kvs), r6)
              | _ => none
            | '}' :: r5 => some (.objI [(⟨k⟩, x)], r5)
            | _ => none
          | _ => none
        | _ => none
      | none => none
    | _ => none

/-- Parse a JSON value and return it with the unconsumed input. -/
def parseValue (fuel : Nat) (l : List Char) : Option (PyJson × List Char) :=
  match parseCore fuel .val l with
  | some (.v x, r) => some (x, r)
  | _ => none

/-- Model of Python `json.loads` restricted to the JSON subset the embedding
needs (integers rather than floats, no `\uXXXX` escapes, no NaN/Infinity
extensions).  `json.loads` accepts surrounding JSON whitespace and requires
the whole input to be consumed; this is modelled by stripping the
whitespace and demanding an exact parse.  `none` models a raised
`json.JSONDecodeError`. -/
def json_loads (s : String) : Option PyJson :=
  let l := pyStrip s.data
  match parseValue (4 * l.length + 4) l with
  | some (v, []) => some v
  | _ => none

/-- A PDF document as exposed by the rendering library: its page count, and
its pages indexed by `load_page` (pages are abstract tokens). -/
structure PdfDoc where
  pageCount : Nat
  loadPage : Nat → Nat

/-- Environment of external collaborators, modelled as oracles per the
black-box contracts of the specification:
`fitzOpen` is the rendering library's document loader (`none` models the
parse failure it signals via its library error, `fitz.FitzError`);
`renderPng` is `load_page(i).get_pixmap().tobytes("png")` on a page token
(`none` models a raised rendering error); `modelText` is
`PIL.Image.open` plus `model.generate_content(...).text` (`none` models an
exception raised by either); `nowTs` is `datetime.now().timestamp()`
rendered as a string; `writeErr`/`removeErr`, when `some m`, model an OS
error with message `m` raised by the scratch-file write or by
`os.remove`. -/
structure Env where
  fitzOpen : List Nat → Option PdfDoc
  renderPng : Nat → Option Nat
  modelText : Nat → Option String
  nowTs : String
  writeErr : Option String
  removeErr : Option String

/-- The working directory: a list of (filename, byte content) entries. -/
abbrev FS := List (String × List Nat)

/-- Content of a named file, first matching entry. -/
def fsLookup : String → FS → Option (List Nat)
  | _, [] => none
  | n, (m, c) :: rest => if m = n then some c else fsLookup n rest

/-- Whether a file of the given name is present on disk. -/
def fsHas : String → FS → Bool
  | _, [] => false
  | n, (m, _) :: rest => if m = n then true else fsHas n rest

/-- Effect of `os.remove`: the named file is no longer present. -/
def fsRemove : String → FS → FS
  | _, [] => []
  | n, (m, c) :: rest => if m = n then fsRemove n rest else (m, c) :: fsRemove n rest

/-- Python `filename.lower().endswith('.pdf')` (src/main.py line 27),
on the character list of the filename. -/
def lowerEndsWithPdf (filename : String) : Bool :=
  (".pdf".data).isSuffixOf (filename.data.map Char.toLower)

/-- Embedding of `validate_pdf` (src/main.py lines 25-35): the extension
check, then `fitz.open(stream=content, filetype="pdf")` where the
library's parse failure (`fitz.FitzError`) is caught and turned into
`False`. -/
def validate_pdf (env : Env) (filename : String) (content : List Nat) : Bool :=
  if lowerEndsWithPdf filename then
    match env.fitzOpen content with
    | some _ => true
    | none => false
  else
    false

/-- An exception as it travels through the endpoint's handlers:
an `HTTPException(status, detail)`, the rendering library's error, or an
OS error, the latter two carrying `str(e)`. -/
inductive PyExc where
  | http (status : Nat) (detail : String)
  | fitzErr (msg : String)
  | osErr (msg : String)

/-- Exception-transparent embedding of `validate_pdf`: `fitz.open` is
spelled as a fallible step raising the library error on parse failure, and
the `except fitz.FitzError` clause catches exactly that error, so that
totality of the function is a statement rather than a typing artifact. -/
def validate_pdf_exc (env : Env) (filename : String) (content : List Nat) :
    Except PyExc Bool :=
  if lowerEndsWithPdf filename then
    let opened : Except PyExc PdfDoc :=
      match env.fitzOpen content with
      | some d => .ok d
      | none => .error (.fitzErr "cannot open broken document")
    match opened with
    | .ok _ => .ok true
    | .error (.fitzErr _) => .ok false
    | .error e => .error e
  else
    .ok false

/-- Embedding of `convert_pdf_to_image` (src/main.py lines 37-51).  Every
failure inside the function body — the file missing at `pdf_path`, the
parse failure of `fitz.open`, the `HTTPException(400, "PDF has no pages.")`
raised for a zero-page document, and a rendering error — is caught by the
function's own `except Exception` clause and reported as `None`
(`HTTPException` is a subclass of `Exception`, so even the deliberate
zero-page signal is swallowed here). -/
def convert_pdf_to_image (env : Env) (fs : FS) (pdf_path : String) : Option Nat :=
  match fsLookup pdf_path fs with
  | none => none
  | some content =>
    match env.fitzOpen content with
    | none => none
    | some doc =>
      if doc.pageCount < 1 then none
      else env.renderPng (doc.loadPage 0)

/-- Embedding of `extract_aadhaar_data` (src/main.py lines 53-96): obtain
the model's response text for the image (any exception from `PIL` or the
model call is caught and yields `None`), clean the markdown fences, and
`json.loads` the result, where a `JSONDecodeError` again yields `None`. -/
def extract_aadhaar_data (env : Env) (img : Nat) : Option PyJson :=
  match env.modelText img with
  | none => none
  | some txt => json_loads (cleanResponse txt)

/-- An uploaded file: declared filename plus raw byte content. -/
structure Request where
  filename : String
  content : List Nat

/-- An HTTP response: status code and JSON body. -/
structure Resp where
  status : Nat
  body : PyJson

/-- JSON error body `\x7b"error": m\x7d` produced by the endpoint's
exception handlers. -/
def errBody (m : String) : PyJson :=
  .obj [("error", .str m)]

/-- Scratch filename `f"temp_aadhaar_\x7bdatetime.now().timestamp()\x7d.pdf"`
(src/main.py line 115). -/
def tempName (env : Env) : String :=
  "temp_aadhaar_" ++ env.nowTs ++ ".pdf"

/-- The body of the `try` block of `extract_aadhaar` (src/main.py lines
103-141), threading the filesystem state.  An `.error` outcome is an
exception escaping the `try` block together with the filesystem state at
the moment it was raised.  Note that the cleanup `os.remove` is reached
only after all three guard checks have passed: the `raise HTTPException`
statements jump straight out of the block, leaving the scratch file in
place. -/
def pipeline (env : Env) (req : Request) (fs : FS) :
    Except (PyExc × FS) (Resp × FS) :=
  if validate_pdf env req.filename req.content then
    match env.writeErr with
    | some m => .error (.osErr m, fs)
    | none =>
      let temp := tempName env
      let fs1 : FS := (temp, req.content) :: fs
      match convert_pdf_to_image env fs1 temp with
      | none => .error (.http 400 ("Failed to process " ++ req.filename), fs1)
      | some img =>
        match extract_aadhaar_data env img with
        | none =>
          .error (.http 400 ("Failed to extract data from " ++ req.filename), fs1)
        | some v =>
          if pyFalsy v then
            .error (.http 400 ("Failed to extract data from " ++ req.filename), fs1)
          else
            let fs2 : FS :=
              match env.removeErr with
              | some _ => fs1
              | none => fsRemove temp fs1
            .ok (⟨200, v⟩, fs2)
  else
    .error (.http 400 ("File " ++ req.filename ++ " must be a valid PDF"), fs)

/-- Embedding of the endpoint `extract_aadhaar` (src/main.py lines 98-146):
run the `try` block, then apply the two `except` clauses — an
`HTTPException` becomes a response with its status and
`\x7b"error": detail\x7d`, any other exception becomes a 500 response with
`\x7b"error": str(e)\x7d`. -/
def extract_aadhaar (env : Env) (req : Request) (fs : FS) : Resp × FS :=
  match pipeline env req fs with
  | .ok r => r
  | .error (.http st d, fs') => (⟨st, errBody d⟩, fs')
  | .error (.fitzErr m, fs') => (⟨500, errBody m⟩, fs')
  | .error (.osErr m, fs') => (⟨500, errBody m⟩, fs')

/-- Whether `pat` occurs as a contiguous substring of the list. -/
def containsSub (pat : List Char) : List Char → Bool
  | [] => pat.isEmpty
  | c :: rest => pat.isPrefixOf (c :: rest) || containsSub pat rest

/-- Sample environment: every upload parses to a zero-page document. -/
def envZeroPages : Env :=
  ⟨fun _ => some ⟨0, fun _ => 0⟩, fun _ => some 0, fun _ => some "\x7b\x7d", "1", none, none⟩

/-- Sample environment: one-page documents, rendering succeeds, and the
model answers with prose that is not JSON. -/
def envModelProse : Env :=
  ⟨fun _ => some ⟨1, fun _ => 0⟩, fun _ => some 0,
   fun _ => some "I cannot process this image", "1700000000.0", none, none⟩

/-- Sample environment: one-page documents and a model answer that parses
to the empty JSON object, which Python treats as falsy. -/
def envModelEmptyObj : Env :=
  ⟨fun _ => some ⟨1, fun _ => 0⟩, fun _ => some 0,
   fun _ => some "\x7b\x7d", "1700000000.0", none, none⟩

/-- Sample environment: a successful end-to-end run, with a model answer
whose keys and value types do not match the documented schema. -/
def envModelOddJson : Env :=
  ⟨fun _ => some ⟨1, fun _ => 0⟩, fun _ => some 0,
   fun _ => some "\x7b\"unexpected\": [1, \"\", null], \"confidence\": \"high\"\x7d",
   "1700000000.0", none, none⟩

/-- Sample environment: the scratch-file write raises an OS error. -/
def envWriteFails : Env :=
  ⟨fun _ => some ⟨1, fun _ => 0⟩, fun _ => some 0,
   fun _ => some "\x7b\x7d", "1700000000.0", some "disk full", none⟩

/-- Sample environment: content `[1]` opens as a three-page document and
any other content as a seven-page document, both with the same first
page. -/
def envTwoDocs : Env :=
  ⟨fun c => if c = [1] then some ⟨3, fun _ => 5⟩ else some ⟨7, fun _ => 5⟩,
   fun p => some (p + 100), fun _ => some "\x7b\x7d", "1", none, none⟩

end AadhaarExtract

namespace AadhaarExtract

theorem data_append (s t : String) : (s ++ t).data = s.data ++ t.data := by
  cases s; cases t; rfl

theorem ne_msg_file_extract (fn : String) :
    "File " ++ fn ++ " must be a valid PDF" ≠ "Failed to extract data from " ++ fn := by
  intro h
  have h' := congrArg String.length h
  simp only [String.length_append] at h'
  have e1 : ("File " : String).length = 5 := by decide
  have e2 : (" must be a valid PDF" : String).length = 20 := by decide
  have e3 : ("Failed to extract data from " : String).length = 28 := by decide
  rw [e1, e2, e3] at h'
  omega

theorem ne_msg_process_extract (fn : String) :
    "Failed to process " ++ fn ≠ "Failed to extract data from " ++ fn := by
  intro h
  have h' := congrArg String.length h
  simp only [String.length_append] at h'
  have e1 : ("Failed to process " : String).length = 18 := by decide
  have e2 : ("Failed to extract data from " : String).length = 28 := by decide
  rw [e1, e2] at h'
  omega

theorem errBody_inj {a b : String} (h : errBody a = errBody b) : a = b := by
  simpa [errBody] using h

theorem fsHas_fsRemove_self (n : String) (fs : FS) :
    fsHas n (fsRemove n fs) = false := by
  induction fs with
  | nil => rfl
  | cons e rest ih =>
    obtain ⟨m, c⟩ := e
    by_cases hm : m = n
    · simp [fsRemove, hm, ih]
    · simp [fsRemove, fsHas, hm, ih]

theorem fsHas_cons_self (n : String) (c : List Nat) (fs : FS) :
    fsHas n ((n, c) :: fs) = true := by
  simp [fsHas]

/-- C2: for every filename and every byte content, `validate_pdf` returns a
boolean and never raises: the exception-transparent embedding always
returns `.ok` with the same boolean as the predicate — a parse failure of
the content is caught by the `except fitz.FitzError` clause and yields
`false` rather than an error. -/
theorem validate_pdf_total (env : Env) (filename : String) (content : List Nat) :
    validate_pdf_exc env filename content = .ok (validate_pdf env filename content) := by
  unfold validate_pdf_exc validate_pdf
  by_cases hf : lowerEndsWithPdf filename <;> cases h : env.fitzOpen content <;> simp [hf, h]

end AadhaarExtract

namespace AadhaarExtract

/-- C3: for every upload that passes validation but opens to a zero-page
document, `convert_pdf_to_image` reports the invalid input as absence (its
internal `HTTPException(400)` is swallowed by its own handler) and the
endpoint responds with HTTP status 400. -/
theorem zero_pages_yields_400 (env : Env) (req : Request) (fs : FS) (doc : PdfDoc)
    (hv : validate_pdf env req.filename req.content = true)
    (hw : env.writeErr = none)
    (hd : env.fitzOpen req.content = some doc)
    (hz : doc.pageCount = 0) :
    convert_pdf_to_image env ((tempName env, req.content) :: fs) (tempName env) = none ∧
    (extract_aadhaar env req fs).1.status = 400 := by
  have hc : convert_pdf_to_image env ((tempName env, req.content) :: fs) (tempName env) = none := by
    unfold convert_pdf_to_image
    simp [fsLookup, hd, hz]
  refine ⟨hc, ?_⟩
  unfold extract_aadhaar pipeline
  simp [hv, hw, hc]

/-- Witness for C3: a concrete zero-page document yields a 400 response. -/
theorem zero_pages_yields_400_w :
    validate_pdf envZeroPages "card.pdf" [1] = true ∧
    (extract_aadhaar envZeroPages ⟨"card.pdf", [1]⟩ []).1.status = 400 :=
  ⟨rfl, (zero_pages_yields_400 envZeroPages ⟨"card.pdf", [1]⟩ [] ⟨0, fun _ => 0⟩
      rfl rfl rfl rfl).2⟩

/-- C7: for every upload whose filename does not end in ".pdf", or whose
content does not parse as a PDF, the validator returns false, and whenever
the validator returns false the endpoint responds 400 with the error body
"File <filename> must be a valid PDF", leaving the filesystem untouched. -/
theorem invalid_upload_yields_400 (env : Env) (req : Request) (fs : FS) :
    (lowerEndsWithPdf req.filename = false → validate_pdf env req.filename req.content = false) ∧
    (env.fitzOpen req.content = none → validate_pdf env req.filename req.content = false) ∧
    (validate_pdf env req.filename req.content = false →
      extract_aadhaar env req fs =
        (⟨400, errBody ("File " ++ req.filename ++ " must be a valid PDF")⟩, fs)) := by
  refine ⟨?_, ?_, ?_⟩
  · intro h
    unfold validate_pdf
    simp [h]
  · intro h
    unfold validate_pdf
    simp [h]
  · intro h
    unfold extract_aadhaar pipeline
    simp [h]

/-- Witness for C7: the spec scenario — uploading "card.txt" yields 400
with error message "File card.txt must be a valid PDF". -/
theorem invalid_upload_yields_400_w :
    validate_pdf envModelProse "card.txt" [1] = false ∧
    extract_aadhaar envModelProse ⟨"card.txt", [1]⟩ [] =
      (⟨400, errBody "File card.txt must be a valid PDF"⟩, []) := by
  have h1 : validate_pdf envModelProse "card.txt" [1] = false :=
    (invalid_upload_yields_400 envModelProse ⟨"card.txt", [1]⟩ []).1 (by decide)
  refine ⟨h1, ?_⟩
  have h2 := (invalid_upload_yields_400 envModelProse ⟨"card.txt", [1]⟩ []).2.2 h1
  rw [h2]
  rfl

/-- C8: any non-`HTTPException` exception escaping the `try` block after
validation (in the embedding, an OS error raised by the scratch-file
write — the later stages catch their own exceptions internally) is mapped
by the outermost handler to a 500 response whose JSON body is
`\x7b"error": m\x7d` with `m` the exception message. -/
theorem uncaught_exc_yields_500 (env : Env) (req : Request) (fs fsE : FS) (m : String)
    (h : pipeline env req fs = .error (.osErr m, fsE)) :
    extract_aadhaar env req fs = (⟨500, errBody m⟩, fsE) := by
  unfold extract_aadhaar
  rw [h]

/-- Witness for C8: a concrete failing write yields a 500 response carrying
the OS error message. -/
theorem uncaught_exc_yields_500_w :
    pipeline envWriteFails ⟨"card.pdf", [1]⟩ [] = .error (.osErr "disk full", []) ∧
    extract_aadhaar envWriteFails ⟨"card.pdf", [1]⟩ [] = (⟨500, errBody "disk full"⟩, []) :=
  ⟨rfl, uncaught_exc_yields_500 envWriteFails ⟨"card.pdf", [1]⟩ [] [] "disk full" rfl⟩

/-- C9: whenever the model response text cleans to valid JSON,
`extract_aadhaar_data` returns the parsed value unchanged — no key,
emptiness or type validation is applied to the fields. -/
theorem valid_json_passthrough (env : Env) (img : Nat) (txt : String) (v : PyJson)
    (ht : env.modelText img = some txt)
    (hj : json_loads (cleanResponse txt) = some v) :
    extract_aadhaar_data env img = some v := by
  unfold extract_aadhaar_data
  simp [ht, hj]

/-- Witness for C9: a response with keys and value types outside the
documented schema passes through verbatim. -/
theorem valid_json_passthrough_w :
    extract_aadhaar_data envModelOddJson 0 =
      some (.obj [("unexpected", .arr [.num 1, .str "", .null]),
                  ("confidence", .str "high")]) :=
  valid_json_passthrough envModelOddJson 0
    "\x7b\"unexpected\": [1, \"\", null], \"confidence\": \"high\"\x7d"
    (.obj [("unexpected", .arr [.num 1, .str "", .null]), ("confidence", .str "high")])
    rfl rfl

/-- C10: `convert_pdf_to_image` loads and renders only the page at index
zero: its result is the rendering of `load_page 0`, and two documents
agreeing on page zero (regardless of their total page counts) convert
identically. -/
theorem convert_renders_only_first_page (env : Env) (fs fs' : FS) (p : String)
    (c c' : List Nat) (d d' : PdfDoc)
    (h1 : fsLookup p fs = some c) (h2 : fsLookup p fs' = some c')
    (ho : env.fitzOpen c = some d) (ho' : env.fitzOpen c' = some d')
    (hp : 1 ≤ d.pageCount) (hp' : 1 ≤ d'.pageCount)
    (hpage : d.loadPage 0 = d'.loadPage 0) :
    convert_pdf_to_image env fs p = env.renderPng (d.loadPage 0) ∧
    convert_pdf_to_image env fs p = convert_pdf_to_image env fs' p := by
  have k1 : ¬ d.pageCount < 1 := by omega
  have k2 : ¬ d'.pageCount < 1 := by omega
  unfold convert_pdf_to_image
  simp [h1, h2, ho, ho', k1, k2, hpage]

/-- Witness for C10: a three-page and a seven-page document with the same
first page convert to the same image. -/
theorem convert_renders_only_first_page_w :
    convert_pdf_to_image envTwoDocs [("a.pdf", [1])] "a.pdf" = some 105 ∧
    convert_pdf_to_image envTwoDocs [("a.pdf", [1])] "a.pdf" =
      convert_pdf_to_image envTwoDocs [("a.pdf", [2])] "a.pdf" := by
  have h := convert_renders_only_first_page envTwoDocs [("a.pdf", [1])] [("a.pdf", [2])]
    "a.pdf" [1] [2] ⟨3, fun _ => 5⟩ ⟨7, fun _ => 5⟩ rfl rfl rfl rfl
    (by decide) (by decide) rfl
  exact ⟨h.1, h.2⟩

end AadhaarExtract

namespace AadhaarExtract

/-- C4: if the model response cleans to parseable JSON whose parsed value
is falsy in Python (empty object, empty array, null, 0, empty string), the
endpoint's `if not aadhaar_data` check treats the result as absence and
responds 400 with "Failed to extract data from <filename>" — and, as the
final component of the result shows, the scratch file is still on disk. -/
theorem falsy_json_yields_400 (env : Env) (req : Request) (fs : FS) (img : Nat)
    (txt : String) (v : PyJson)
    (hv : validate_pdf env req.filename req.content = true)
    (hw : env.writeErr = none)
    (hc : convert_pdf_to_image env ((tempName env, req.content) :: fs) (tempName env) = some img)
    (ht : env.modelText img = some txt)
    (hj : json_loads (cleanResponse txt) = some v)
    (hf : pyFalsy v = true) :
    extract_aadhaar env req fs =
      (⟨400, errBody ("Failed to extract data from " ++ req.filename)⟩,
       (tempName env, req.content) :: fs) := by
  unfold extract_aadhaar pipeline extract_aadhaar_data
  simp [hv, hw, hc, ht, hj, hf]

/-- Witness for C4: the empty JSON object parses successfully yet yields
the 400 extraction-failure response. -/
theorem falsy_json_yields_400_w :
    json_loads (cleanResponse "\x7b\x7d") = some (.obj []) ∧
    extract_aadhaar envModelEmptyObj ⟨"card.pdf", [1]⟩ [] =
      (⟨400, errBody "Failed to extract data from card.pdf"⟩,
       [("temp_aadhaar_1700000000.0.pdf", [1])]) := by
  refine ⟨rfl, ?_⟩
  have h := falsy_json_yields_400 envModelEmptyObj ⟨"card.pdf", [1]⟩ [] 0 "\x7b\x7d"
    (.obj []) rfl rfl rfl rfl rfl rfl
  rw [h]
  rfl

/-- C6: if the cleaned model response is not valid JSON,
`extract_aadhaar_data` yields `none` rather than raising, and the endpoint
responds 400 with "Failed to extract data from <filename>". -/
theorem non_json_yields_400 (env : Env) (req : Request) (fs : FS) (img : Nat)
    (txt : String)
    (hv : validate_pdf env req.filename req.content = true)
    (hw : env.writeErr = none)
    (hc : convert_pdf_to_image env ((tempName env, req.content) :: fs) (tempName env) = some img)
    (ht : env.modelText img = some txt)
    (hj : json_loads (cleanResponse txt) = none) :
    extract_aadhaar_data env img = none ∧
    extract_aadhaar env req fs =
      (⟨400, errBody ("Failed to extract data from " ++ req.filename)⟩,
       (tempName env, req.content) :: fs) := by
  have hd : extract_aadhaar_data env img = none := by
    unfold extract_aadhaar_data
    simp [ht, hj]
  refine ⟨hd, ?_⟩
  unfold extract_aadhaar pipeline
  simp [hv, hw, hc, hd]

/-- Witness for C6: the spec scenario — the model answers with prose,
and the endpoint returns 400 with "Failed to extract data from
card.pdf". -/
theorem non_json_yields_400_w :
    json_loads (cleanResponse "I cannot process this image") = none ∧
    extract_aadhaar envModelProse ⟨"card.pdf", [1]⟩ [] =
      (⟨400, errBody "Failed to extract data from card.pdf"⟩,
       [("temp_aadhaar_1700000000.0.pdf", [1])]) := by
  refine ⟨rfl, ?_⟩
  have h := (non_json_yields_400 envModelProse ⟨"card.pdf", [1]⟩ [] 0
    "I cannot process this image" rfl rfl rfl rfl rfl).2
  rw [h]
  rfl

/-- Counterexample to C1: a concrete request that passes validation and
rasterization but fails extraction receives the 400 "Failed to extract
data" response while the scratch file is still present on disk — the
`os.remove` cleanup is placed after the guard checks, and the raised
`HTTPException` jumps over it. -/
theorem cleanup_skipped_on_extraction_failure :
    (extract_aadhaar envModelProse ⟨"card.pdf", [1]⟩ []).1 =
      ⟨400, errBody "Failed to extract data from card.pdf"⟩ ∧
    fsHas (tempName envModelProse) (extract_aadhaar envModelProse ⟨"card.pdf", [1]⟩ []).2 = true := by
  constructor
  · rfl
  · rfl

/-- C1 (amended): the scratch file is removed only on the success path —
after a 200 response with `os.remove` succeeding, the file is gone, but
after a 400 "Failed to extract data" response the scratch file is still
present on disk. -/
theorem cleanup_success_path_only (env : Env) (req : Request) (fs : FS) :
    ((extract_aadhaar env req fs).1.status = 200 → env.removeErr = none →
      fsHas (tempName env) (extract_aadhaar env req fs).2 = false)
  ∧ ((extract_aadhaar env req fs).1 =
      ⟨400, errBody ("Failed to extract data from " ++ req.filename)⟩ →
      fsHas (tempName env) (extract_aadhaar env req fs).2 = true) := by
  by_cases hv : validate_pdf env req.filename req.content
  case neg =>
    have hx : extract_aadhaar env req fs =
        (⟨400, errBody ("File " ++ req.filename ++ " must be a valid PDF")⟩, fs) := by
      unfold extract_aadhaar pipeline
      simp [hv]
    rw [hx]
    constructor
    · intro h
      simp at h
    · intro h
      simp only [Resp.mk.injEq] at h
      exact absurd (errBody_inj h.2) (ne_msg_file_extract req.filename)
  case pos =>
  cases hwe : env.writeErr with
  | some m =>
    have hx : extract_aadhaar env req fs = (⟨500, errBody m⟩, fs) := by
      unfold extract_aadhaar pipeline
      simp [hv, hwe]
    rw [hx]
    constructor
    · intro h
      simp at h
    · intro h
      simp only [Resp.mk.injEq] at h
      omega
  | none =>
  cases hc : convert_pdf_to_image env ((tempName env, req.content) :: fs) (tempName env) with
  | none =>
    have hx : extract_aadhaar env req fs =
        (⟨400, errBody ("Failed to process " ++ req.filename)⟩,
         (tempName env, req.content) :: fs) := by
      unfold extract_aadhaar pipeline
      simp [hv, hwe, hc]
    rw [hx]
    constructor
    · intro h
      simp at h
    · intro h
      simp only [Resp.mk.injEq] at h
      exact absurd (errBody_inj h.2) (ne_msg_process_extract req.filename)
  | some img =>
  cases he : extract_aadhaar_data env img with
  | none =>
    have hx : extract_aadhaar env req fs =
        (⟨400, errBody ("Failed to extract data from " ++ req.filename)⟩,
         (tempName env, req.content) :: fs) := by
      unfold extract_aadhaar pipeline
      simp [hv, hwe, hc, he]
    rw [hx]
    constructor
    · intro h
      simp at h
    · intro _
      exact fsHas_cons_self _ _ _
  | some v =>
  by_cases hf : pyFalsy v
  case pos =>
    have hx : extract_aadhaar env req fs =
        (⟨400, errBody ("Failed to extract data from " ++ req.filename)⟩,
         (tempName env, req.content) :: fs) := by
      unfold extract_aadhaar pipeline
      simp [hv, hwe, hc, he, hf]
    rw [hx]
    constructor
    · intro h
      simp at h
    · intro _
      exact fsHas_cons_self _ _ _
  case neg =>
  cases hre : env.removeErr with
  | some m =>
    have hx : extract_aadhaar env req fs = (⟨200, v⟩, (tempName env, req.content) :: fs) := by
      unfold extract_aadhaar pipeline
      simp [hv, hwe, hc, he, hf, hre]
    rw [hx]
    constructor
    · intro _ h2
      simp at h2
    · intro h
      simp only [Resp.mk.injEq] at h
      omega
  | none =>
    have hx : extract_aadhaar env req fs =
        (⟨200, v⟩, fsRemove (tempName env) ((tempName env, req.content) :: fs)) := by
      unfold extract_aadhaar pipeline
      simp [hv, hwe, hc, he, hf, hre]
    rw [hx]
    constructor
    · intro _ _
      exact fsHas_fsRemove_self _ _
    · intro h
      simp only [Resp.mk.injEq] at h
      omega

/-- Witness for C1 (amended): a concrete successful request leaves no
scratch file behind. -/
theorem cleanup_success_path_only_w :
    (extract_aadhaar envModelOddJson ⟨"card.pdf", [1]⟩ []).1.status = 200 ∧
    fsHas (tempName envModelOddJson) (extract_aadhaar envModelOddJson ⟨"card.pdf", [1]⟩ []).2 = false :=
  ⟨rfl, (cleanup_success_path_only envModelOddJson ⟨"card.pdf", [1]⟩ []).1 rfl rfl⟩

end AadhaarExtract

namespace AadhaarExtract

theorem removeAllGo_stable (pat : List Char) :
    ∀ fuel, ∀ l : List Char, l.length ≤ fuel → removeAllGo pat fuel l = removeAll pat l := by
  intro fuel
  induction fuel using Nat.strong_induction_on with
  | _ fuel ih =>
    intro l hl
    match fuel, l with
    | 0, [] => rfl
    | 0, c :: rest => simp at hl
    | f + 1, [] => rfl
    | f + 1, c :: rest =>
      have hr : rest.length ≤ f := by simpa using hl
      show removeAllGo pat (f + 1) (c :: rest) = removeAllGo pat (c :: rest).length (c :: rest)
      by_cases hp : pat.isPrefixOf (c :: rest)
      · have hd : (List.drop (pat.length - 1) rest).length ≤ rest.length := by
          simp
        rw [show removeAllGo pat (f + 1) (c :: rest)
              = removeAllGo pat f (List.drop (pat.length - 1) rest) by
            simp [removeAllGo, hp]]
        rw [show removeAllGo pat (c :: rest).length (c :: rest)
              = removeAllGo pat rest.length (List.drop (pat.length - 1) rest) by
            simp [removeAllGo, hp]]
        rw [ih f (by omega) _ (le_trans hd hr), ih rest.length (by omega) _ hd]
      · rw [show removeAllGo pat (f + 1) (c :: rest) = c :: removeAllGo pat f rest by
            simp [removeAllGo, hp]]
        rw [show removeAllGo pat (c :: rest).length (c :: rest)
              = c :: removeAllGo pat rest.length rest by
            simp [removeAllGo, hp]]
        rw [ih f (by omega) _ hr, ih rest.length (by omega) _ (le_refl _)]

theorem removeAll_cons_pos (pat : List Char) (c : Char) (rest : List Char)
    (h : pat.isPrefixOf (c :: rest) = true) :
    removeAll pat (c :: rest) = removeAll pat (List.drop (pat.length - 1) rest) := by
  show removeAllGo pat (c :: rest).length (c :: rest) = _
  rw [show removeAllGo pat (c :: rest).length (c :: rest)
        = removeAllGo pat rest.length (List.drop (pat.length - 1) rest) by
      simp [removeAllGo, h]]
  exact removeAllGo_stable pat rest.length _ (by simp)

theorem removeAll_cons_neg (pat : List Char) (c : Char) (rest : List Char)
    (h : pat.isPrefixOf (c :: rest) = false) :
    removeAll pat (c :: rest) = c :: removeAll pat rest := by
  show removeAllGo pat (c :: rest).length (c :: rest) = _
  rw [show removeAllGo pat (c :: rest).length (c :: rest)
        = c :: removeAllGo pat rest.length rest by
      simp [removeAllGo, h]]
  rfl

theorem isPrefixOf_append_self : ∀ (pat m : List Char), pat.isPrefixOf (pat ++ m) = true
  | [], m => by cases m <;> rfl
  | p :: ps, m => by
    simp [List.isPrefixOf, isPrefixOf_append_self ps m]

theorem removeAll_append_self (pat m : List Char) (hne : pat ≠ []) :
    removeAll pat (pat ++ m) = removeAll pat m := by
  match pat, hne with
  | p :: ps, _ =>
    rw [List.cons_append, removeAll_cons_pos (p :: ps) p (ps ++ m)
        (by rw [← List.cons_append]; exact isPrefixOf_append_self (p :: ps) m)]
    simp

end AadhaarExtract

namespace AadhaarExtract

theorem dropWhile_head_false {p : Char → Bool} :
    ∀ (l : List Char) (c : Char) (rest : List Char),
      List.dropWhile p l = c :: rest → p c = false := by
  intro l
  induction l with
  | nil => intro c rest h; simp at h
  | cons a l' ih =>
    intro c rest h
    by_cases ha : p a
    · rw [List.dropWhile_cons, if_pos ha] at h
      exact ih c rest h
    · rw [List.dropWhile_cons, if_neg ha] at h
      cases h
      simpa using ha

theorem dropWhile_idem (p : Char → Bool) (l : List Char) :
    List.dropWhile p (List.dropWhile p l) = List.dropWhile p l := by
  cases h : List.dropWhile p l with
  | nil => rfl
  | cons c rest =>
    have hc := dropWhile_head_false l c rest h
    simp [List.dropWhile_cons, hc]

theorem dropWhile_append_last {p : Char → Bool} (a : Char) (ha : p a = false) :
    ∀ m : List Char, ∃ m', List.dropWhile p (m ++ [a]) = m' ++ [a] := by
  intro m
  induction m with
  | nil => exact ⟨[], by simp [List.dropWhile_cons, ha]⟩
  | cons c m' ih =>
    by_cases hc : p c
    · obtain ⟨w, hw⟩ := ih
      exact ⟨w, by simp [List.dropWhile_cons, hc, hw]⟩
    · exact ⟨c :: m', by simp [List.dropWhile_cons, hc]⟩

theorem dropWhile_pyStrip (l : List Char) :
    List.dropWhile isWs (pyStrip l) = pyStrip l := by
  cases h : List.dropWhile isWs l with
  | nil => unfold pyStrip; rw [h]; rfl
  | cons a A2 =>
    have ha := dropWhile_head_false l a A2 h
    obtain ⟨m', hm'⟩ := dropWhile_append_last a ha A2.reverse
    unfold pyStrip
    rw [h, show (a :: A2).reverse = A2.reverse ++ [a] by simp, hm']
    simp [List.dropWhile_cons, ha]

theorem pyStrip_idem (l : List Char) : pyStrip (pyStrip l) = pyStrip l := by
  have h1 : pyStrip (pyStrip l) =
      ((List.dropWhile isWs (pyStrip l)).reverse.dropWhile isWs).reverse := rfl
  rw [h1, dropWhile_pyStrip]
  have h2 : (pyStrip l).reverse
      = List.dropWhile isWs ((l.dropWhile isWs).reverse) := by
    unfold pyStrip
    simp
  rw [h2, dropWhile_idem]
  rfl

theorem pyStrip_eq_self_of_ends (a b : Char) (m : List Char)
    (ha : isWs a = false) (hb : isWs b = false) :
    pyStrip (a :: (m ++ [b])) = a :: (m ++ [b]) := by
  unfold pyStrip
  rw [List.dropWhile_cons, if_neg (by simp [ha])]
  rw [show (a :: (m ++ [b])).reverse = b :: (m.reverse ++ [a]) by simp]
  rw [List.dropWhile_cons, if_neg (by simp [hb])]
  simp

end AadhaarExtract

namespace AadhaarExtract

theorem nil_isPrefixOf (l : List Char) : ([] : List Char).isPrefixOf l = true := by
  cases l <;> rfl

theorem isPrefixOf_length_le :
    ∀ a b : List Char, a.isPrefixOf b = true → a.length ≤ b.length := by
  intro a
  induction a with
  | nil => intro b _; simp
  | cons x xs ih =>
    intro b h
    cases b with
    | nil => simp [List.isPrefixOf] at h
    | cons y ys =>
      simp only [List.isPrefixOf, Bool.and_eq_true] at h
      have := ih ys h.2
      simp [List.length_cons]
      omega

theorem removeAll_backticks_append :
    ∀ l : List Char, containsSub ("```".data) l = false →
      removeAll ("```".data) (l ++ "```".data) = l := by
  intro l
  induction l with
  | nil => intro _; decide
  | cons c l' ih =>
    intro h
    have hsplit : ("```".data).isPrefixOf (c :: l') = false ∧ containsSub ("```".data) l' = false := by
      simpa [containsSub] using h
    by_cases hp : ("```".data).isPrefixOf (c :: (l' ++ "```".data)) = true
    · rcases l' with _ | ⟨d, _ | ⟨e, l''⟩⟩
      · have hc : c = '`' := by
          simp only [List.nil_append, List.isPrefixOf, Bool.and_eq_true, beq_iff_eq] at hp
          exact hp.1.symm
        subst hc
        decide
      · have hcd : c = '`' ∧ d = '`' := by
          simp only [List.cons_append, List.nil_append, List.isPrefixOf, Bool.and_eq_true,
            beq_iff_eq] at hp
          exact ⟨hp.1.symm, hp.2.1.symm⟩
        obtain ⟨hc, hd⟩ := hcd
        subst hc
        subst hd
        decide
      · have hcde : c = '`' ∧ d = '`' ∧ e = '`' := by
          simp only [List.cons_append, List.isPrefixOf, Bool.and_eq_true, beq_iff_eq] at hp
          exact ⟨hp.1.symm, hp.2.1.symm, hp.2.2.1.symm⟩
        obtain ⟨hc, hd, he⟩ := hcde
        subst hc
        subst hd
        subst he
        exfalso
        have := hsplit.1
        simp [List.isPrefixOf, nil_isPrefixOf] at this
    · have hp' : ("```".data).isPrefixOf (c :: (l' ++ "```".data)) = false :=
        Bool.eq_false_iff.mpr hp
      rw [List.cons_append, removeAll_cons_neg _ _ _ hp', ih hsplit.2]

theorem removeAll_fence_append :
    ∀ l : List Char, containsSub ("```".data) l = false →
      removeAll ("```json".data) (l ++ "```".data) = l ++ "```".data := by
  intro l
  induction l with
  | nil => intro _; decide
  | cons c l' ih =>
    intro h
    have hsplit : ("```".data).isPrefixOf (c :: l') = false ∧ containsSub ("```".data) l' = false := by
      simpa [containsSub] using h
    by_cases hp : ("```json".data).isPrefixOf (c :: (l' ++ "```".data)) = true
    · rcases l' with _ | ⟨d, _ | ⟨e, _ | ⟨f, l''⟩⟩⟩
      · exfalso
        have hlen := isPrefixOf_length_le _ _ hp
        simp at hlen
      · exfalso
        have hlen := isPrefixOf_length_le _ _ hp
        simp at hlen
      · exfalso
        have hlen := isPrefixOf_length_le _ _ hp
        simp at hlen
      · have hcde : c = '`' ∧ d = '`' ∧ e = '`' := by
          simp only [List.cons_append, List.isPrefixOf, Bool.and_eq_true, beq_iff_eq] at hp
          exact ⟨hp.1.symm, hp.2.1.symm, hp.2.2.1.symm⟩
        obtain ⟨hc, hd, he⟩ := hcde
        subst hc
        subst hd
        subst he
        exfalso
        have := hsplit.1
        simp [List.isPrefixOf, nil_isPrefixOf] at this
    · have hp' : ("```json".data).isPrefixOf (c :: (l' ++ "```".data)) = false :=
        Bool.eq_false_iff.mpr hp
      rw [List.cons_append, removeAll_cons_neg _ _ _ hp', ih hsplit.2, ← List.cons_append]

end AadhaarExtract

namespace AadhaarExtract

theorem cleanResponse_fenced (t : String) (h : containsSub ("```".data) t.data = false) :
    cleanResponse ("```json" ++ t ++ "```") = ⟨pyStrip t.data⟩ := by
  have hdata : ("```json" ++ t ++ "```").data = "```json".data ++ (t.data ++ "```".data) := by
    rw [data_append, data_append, List.append_assoc]
  have hshape : "```json".data ++ (t.data ++ "```".data)
      = '`' :: ((("``json".data ++ t.data) ++ "``".data) ++ ['`']) := by
    show ('`' :: '`' :: '`' :: 'j' :: 's' :: 'o' :: 'n' :: [])
        ++ (t.data ++ ('`' :: '`' :: '`' :: []))
      = '`' :: (((('`' :: '`' :: 'j' :: 's' :: 'o' :: 'n' :: []) ++ t.data)
          ++ ('`' :: '`' :: [])) ++ ['`'])
    simp [List.append_assoc]
  have hstrip : pyStrip ("```json".data ++ (t.data ++ "```".data))
      = "```json".data ++ (t.data ++ "```".data) := by
    rw [hshape]
    exact pyStrip_eq_self_of_ends '`' '`' _ (by decide) (by decide)
  unfold cleanResponse
  rw [hdata, hstrip, removeAll_append_self _ _ (by decide),
    removeAll_fence_append t.data h, removeAll_backticks_append t.data h]

/-- Counterexample to C5: for the valid JSON text `"a```b"` (a JSON string
containing backtick fences), wrapping in markdown fences and cleaning does
not parse back to the same value — `str.replace` removes every occurrence
of "```", mangling the string body to `"ab"`. -/
theorem fence_strip_not_roundtrip :
    (json_loads "\"a```b\"").isSome = true ∧
    json_loads (cleanResponse ("```json" ++ "\"a```b\"" ++ "```")) ≠ json_loads "\"a```b\"" := by
  constructor
  · rfl
  · intro hEq
    have h1 : json_loads (cleanResponse ("```json" ++ "\"a```b\"" ++ "```"))
        = some (PyJson.str "ab") := rfl
    have h2 : json_loads "\"a```b\"" = some (PyJson.str "a```b") := rfl
    rw [h1, h2] at hEq
    have h3 : ("ab" : String) = "a```b" := by
      injection hEq with h4
      injection h4
    exact absurd h3 (by decide)

/-- C5 (amended): for every text `t` in which the delimiter "```" does not
occur, stripping the markdown code fences from "```json" ++ t ++ "```"
yields text that parses to exactly the same JSON value as `t` parsed
without fences. -/
theorem fence_strip_roundtrip_amended (t : String)
    (h : containsSub ("```".data) t.data = false) :
    json_loads (cleanResponse ("```json" ++ t ++ "```")) = json_loads t := by
  rw [cleanResponse_fenced t h]
  have hd : (⟨pyStrip t.data⟩ : String).data = pyStrip t.data := rfl
  unfold json_loads
  rw [hd, pyStrip_idem]

/-- Witness for C5 (amended): a concrete fenced JSON object round-trips. -/
theorem fence_strip_roundtrip_amended_w :
    containsSub ("```".data) ("\x7b\"name\": \"Ada\"\x7d".data) = false ∧
    json_loads (cleanResponse ("```json" ++ "\x7b\"name\": \"Ada\"\x7d" ++ "```")) =
      json_loads "\x7b\"name\": \"Ada\"\x7d" :=
  ⟨by decide, fence_strip_roundtrip_amended "\x7b\"name\": \"Ada\"\x7d" (by decide)⟩

end AadhaarExtract
